import Mathlib

/-!
Shallow embedding of `src/server/db-storage.ts` (class `DatabaseStorage`),
the storage gateway of a loan-brokerage domain.  The persistence engine is
modelled as in-memory tables (`DB`): `select … where … limit 1` becomes
`List.find?`, `select … where` becomes `List.filter`, and
`update … set … where … returning` becomes `updateReturning` below, whose
empty returned sequence signals "nothing matched".  `new Date()` instants
and row identifiers are naturals; `bcrypt.hash` / `bcrypt.compare` are
explicit function parameters (external collaborators of the gateway).
Thrown errors (`throw new Error …`) are `Except.error` with the thrown
message.
-/

/-- A `new Date()` instant, modelled as a natural number. -/
abbrev Instant := Nat

/-- An opaque row identifier assigned by the engine at insertion. -/
abbrev RowId := Nat

/-- A `users` row.  The column set follows the spec's data model §3 (the
schema module `@shared/schema` is not among the sources); `password` holds
whatever string the gateway persisted for the credential. -/
structure User where
  id : RowId
  username : String
  email : String
  password : String
  role : String
  fullName : String
  mobileNumber : String
  city : String
  isActive : Bool
  createdAt : Instant
  updatedAt : Instant
deriving Repr, DecidableEq

/-- A `loan_applications` row (spec §3: owner, optional assigned partner,
status, opaque payload, timestamps). -/
structure LoanApplication where
  id : RowId
  userId : RowId
  assignedDsaId : Option RowId
  status : String
  amount : String
  createdAt : Instant
  updatedAt : Instant
deriving Repr, DecidableEq

/-- A `dsa_partners` row (spec §3: owning user, KYC status, profile,
timestamps). -/
structure DsaPartner where
  id : RowId
  userId : RowId
  kycStatus : String
  businessName : String
  createdAt : Instant
  updatedAt : Instant
deriving Repr, DecidableEq

/-- A `leads` row (spec §3: source, status, optional assigned partner,
optional assignment instant, timestamps). -/
structure Lead where
  id : RowId
  name : String
  source : String
  status : String
  assignedDsaId : Option RowId
  assignedAt : Option Instant
  createdAt : Instant
  updatedAt : Instant
deriving Repr, DecidableEq

/-- A `contact_queries` row (spec §3: inbound message fields, status,
timestamps). -/
structure ContactQuery where
  id : RowId
  name : String
  email : String
  message : String
  status : String
  createdAt : Instant
  updatedAt : Instant
deriving Repr, DecidableEq

/-- TypeScript `Partial<User>`: every column optionally present. -/
structure UserPatch where
  id : Option RowId := none
  username : Option String := none
  email : Option String := none
  password : Option String := none
  role : Option String := none
  fullName : Option String := none
  mobileNumber : Option String := none
  city : Option String := none
  isActive : Option Bool := none
  createdAt : Option Instant := none
  updatedAt : Option Instant := none
deriving Repr, DecidableEq

/-- TypeScript `Partial<LoanApplication>`. -/
structure LoanApplicationPatch where
  id : Option RowId := none
  userId : Option RowId := none
  assignedDsaId : Option (Option RowId) := none
  status : Option String := none
  amount : Option String := none
  createdAt : Option Instant := none
  updatedAt : Option Instant := none
deriving Repr, DecidableEq

/-- TypeScript `Partial<DsaPartner>`. -/
structure DsaPartnerPatch where
  id : Option RowId := none
  userId : Option RowId := none
  kycStatus : Option String := none
  businessName : Option String := none
  createdAt : Option Instant := none
  updatedAt : Option Instant := none
deriving Repr, DecidableEq

/-- TypeScript `Partial<Lead>`. -/
structure LeadPatch where
  id : Option RowId := none
  name : Option String := none
  source : Option String := none
  status : Option String := none
  assignedDsaId : Option (Option RowId) := none
  assignedAt : Option (Option Instant) := none
  createdAt : Option Instant := none
  updatedAt : Option Instant := none
deriving Repr, DecidableEq

/-- TypeScript `Partial<ContactQuery>`. -/
structure ContactQueryPatch where
  id : Option RowId := none
  name : Option String := none
  email : Option String := none
  message : Option String := none
  status : Option String := none
  createdAt : Option Instant := none
  updatedAt : Option Instant := none
deriving Repr, DecidableEq

/-- `InsertUser` (creation input): plaintext credential, optional role,
profile fields. -/
structure InsertUser where
  username : String
  email : String
  password : String
  role : Option String := none
  fullName : String
  mobileNumber : String
  city : String
deriving Repr, DecidableEq

/-- `InsertLead` (creation input): optional source and status — `createLead`
overrides both by spreading defaults after the input record. -/
structure InsertLead where
  name : String
  source : Option String := none
  status : Option String := none
deriving Repr, DecidableEq

/-- The persistence engine's state: one list per table, insertion-ordered,
plus the next identifier the engine will assign. -/
structure DB where
  nextId : RowId
  users : List User
  loanApplications : List LoanApplication
  dsaPartners : List DsaPartner
  leads : List Lead
  contactQueries : List ContactQuery
deriving Repr, DecidableEq

/-- JavaScript `a || b` where `a` is an optional string: `undefined` and the
empty string (both falsy) fall through to the default. -/
def jsOrStr : Option String → String → String
  | none, d => d
  | some s, d => if s = "" then d else s

/-- Engine `update(table).set(patch).where(pred).returning()`: the new table
contents paired with the sequence of updated rows (empty when nothing
matched). -/
def updateReturning {α : Type} (pred : α → Bool) (patch : α → α) (rows : List α) :
    List α × List α :=
  (rows.map fun r => if pred r then patch r else r, (rows.filter pred).map patch)

/-- The shared shape of every gateway mutation: run the engine update and
either throw the operation's not-found message (returned sequence empty) or
return the first updated row together with the new table. -/
def tableUpdate {α : Type} (pred : α → Bool) (patch : α → α) (rows : List α)
    (msg : String) : Except String (α × List α) :=
  let res := updateReturning pred patch rows
  match res.2 with
  | [] => .error msg
  | r :: _ => .ok (r, res.1)

/-- JS spread `{ ...u, ...p }`: each column present in the patch replaces the
stored value. -/
def applyUserPatch (p : UserPatch) (u : User) : User where
  id := p.id.getD u.id
  username := p.username.getD u.username
  email := p.email.getD u.email
  password := p.password.getD u.password
  role := p.role.getD u.role
  fullName := p.fullName.getD u.fullName
  mobileNumber := p.mobileNumber.getD u.mobileNumber
  city := p.city.getD u.city
  isActive := p.isActive.getD u.isActive
  createdAt := p.createdAt.getD u.createdAt
  updatedAt := p.updatedAt.getD u.updatedAt

/-- JS spread `{ ...a, ...p }` for loan applications. -/
def applyLoanApplicationPatch (p : LoanApplicationPatch) (a : LoanApplication) :
    LoanApplication where
  id := p.id.getD a.id
  userId := p.userId.getD a.userId
  assignedDsaId := p.assignedDsaId.getD a.assignedDsaId
  status := p.status.getD a.status
  amount := p.amount.getD a.amount
  createdAt := p.createdAt.getD a.createdAt
  updatedAt := p.updatedAt.getD a.updatedAt

/-- JS spread `{ ...d, ...p }` for DSA partners. -/
def applyDsaPartnerPatch (p : DsaPartnerPatch) (d : DsaPartner) : DsaPartner where
  id := p.id.getD d.id
  userId := p.userId.getD d.userId
  kycStatus := p.kycStatus.getD d.kycStatus
  businessName := p.businessName.getD d.businessName
  createdAt := p.createdAt.getD d.createdAt
  updatedAt := p.updatedAt.getD d.updatedAt

/-- JS spread `{ ...l, ...p }` for leads. -/
def applyLeadPatch (p : LeadPatch) (l : Lead) : Lead where
  id := p.id.getD l.id
  name := p.name.getD l.name
  source := p.source.getD l.source
  status := p.status.getD l.status
  assignedDsaId := p.assignedDsaId.getD l.assignedDsaId
  assignedAt := p.assignedAt.getD l.assignedAt
  createdAt := p.createdAt.getD l.createdAt
  updatedAt := p.updatedAt.getD l.updatedAt

/-- JS spread `{ ...q, ...p }` for contact queries. -/
def applyContactQueryPatch (p : ContactQueryPatch) (q : ContactQuery) :
    ContactQuery where
  id := p.id.getD q.id
  name := p.name.getD q.name
  email := p.email.getD q.email
  message := p.message.getD q.message
  status := p.status.getD q.status
  createdAt := p.createdAt.getD q.createdAt
  updatedAt := p.updatedAt.getD q.updatedAt

namespace DatabaseStorage

/-- `getUser`: select where `id`, limit 1. -/
def getUser (db : DB) (id : RowId) : Option User :=
  db.users.find? fun u => u.id == id

/-- `getUserByUsername`: select where `username`, limit 1. -/
def getUserByUsername (db : DB) (username : String) : Option User :=
  db.users.find? fun u => u.username == username

/-- `getUserByEmail`: select where `email`, limit 1. -/
def getUserByEmail (db : DB) (email : String) : Option User :=
  db.users.find? fun u => u.email == email

/-- `createUser`: hash the plaintext credential with cost 10, then insert the
input with hashed password, `role || "user"`, `isActive: true`; the engine
assigns the identifier and (per the schema's column defaults) the creation
and update timestamps. -/
def createUser (hash : String → Nat → String) (now : Instant) (db : DB)
    (iu : InsertUser) : User × DB :=
  let hashedPassword := hash iu.password 10
  let u : User :=
    { id := db.nextId
      username := iu.username
      email := iu.email
      password := hashedPassword
      role := jsOrStr iu.role "user"
      fullName := iu.fullName
      mobileNumber := iu.mobileNumber
      city := iu.city
      isActive := true
      createdAt := now
      updatedAt := now }
  (u, { db with nextId := db.nextId + 1, users := db.users ++ [u] })

/-- `updateUser`: `set({ ...updates, updatedAt: new Date() })` where `id`;
throws "User not found" when the returned sequence is empty. -/
def updateUser (now : Instant) (db : DB) (id : RowId) (updates : UserPatch) :
    Except String (User × DB) :=
  match tableUpdate (fun u => u.id == id)
      (fun u => { applyUserPatch updates u with updatedAt := now })
      db.users "User not found" with
  | .error e => .error e
  | .ok (u, tbl) => .ok (u, { db with users := tbl })

/-- `authenticateUser`: look up by username; `null` when absent, else compare
the plaintext against the stored hash, returning the user on match and
`null` on mismatch. -/
def authenticateUser (verify : String → String → Bool) (db : DB)
    (username password : String) : Option User :=
  match getUserByUsername db username with
  | none => none
  | some user => if verify password user.password then some user else none

/-- `updateLoanApplication`: same merge-and-refresh shape as `updateUser`,
throwing "Application not found". -/
def updateLoanApplication (now : Instant) (db : DB) (id : RowId)
    (updates : LoanApplicationPatch) : Except String (LoanApplication × DB) :=
  match tableUpdate (fun a => a.id == id)
      (fun a => { applyLoanApplicationPatch updates a with updatedAt := now })
      db.loanApplications "Application not found" with
  | .error e => .error e
  | .ok (a, tbl) => .ok (a, { db with loanApplications := tbl })

/-- `updateDsaPartner`: same merge-and-refresh shape, throwing
"DSA partner not found". -/
def updateDsaPartner (now : Instant) (db : DB) (id : RowId)
    (updates : DsaPartnerPatch) : Except String (DsaPartner × DB) :=
  match tableUpdate (fun d => d.id == id)
      (fun d => { applyDsaPartnerPatch updates d with updatedAt := now })
      db.dsaPartners "DSA partner not found" with
  | .error e => .error e
  | .ok (d, tbl) => .ok (d, { db with dsaPartners := tbl })

/-- `createLead`: insert the input with `source: lead.source || "website"`
and `status: "new"`; the engine assigns identifier and timestamps. -/
def createLead (now : Instant) (db : DB) (lead : InsertLead) : Lead × DB :=
  let l : Lead :=
    { id := db.nextId
      name := lead.name
      source := jsOrStr lead.source "website"
      status := "new"
      assignedDsaId := none
      assignedAt := none
      createdAt := now
      updatedAt := now }
  (l, { db with nextId := db.nextId + 1, leads := db.leads ++ [l] })

/-- `getLeadsByDsa`: select where `assignedDsaId` equals the given partner. -/
def getLeadsByDsa (db : DB) (dsaId : RowId) : List Lead :=
  db.leads.filter fun l => l.assignedDsaId == some dsaId

/-- `assignLeadToDsa`: one engine update setting `assignedDsaId`,
`assignedAt: new Date()` and `updatedAt: new Date()` together; throws
"Lead not found" when nothing matched. -/
def assignLeadToDsa (now : Instant) (db : DB) (leadId dsaId : RowId) :
    Except String (Lead × DB) :=
  match tableUpdate (fun l => l.id == leadId)
      (fun l => { l with assignedDsaId := some dsaId, assignedAt := some now,
                         updatedAt := now })
      db.leads "Lead not found" with
  | .error e => .error e
  | .ok (l, tbl) => .ok (l, { db with leads := tbl })

/-- `updateLead`: same merge-and-refresh shape, throwing "Lead not found". -/
def updateLead (now : Instant) (db : DB) (id : RowId) (updates : LeadPatch) :
    Except String (Lead × DB) :=
  match tableUpdate (fun l => l.id == id)
      (fun l => { applyLeadPatch updates l with updatedAt := now })
      db.leads "Lead not found" with
  | .error e => .error e
  | .ok (l, tbl) => .ok (l, { db with leads := tbl })

/-- `updateContactQuery`: `set(updates)` with NO forced `updatedAt` refresh —
the one update operation that merges the patch alone; throws
"Contact query not found". -/
def updateContactQuery (db : DB) (id : RowId) (updates : ContactQueryPatch) :
    Except String (ContactQuery × DB) :=
  match tableUpdate (fun q => q.id == id)
      (fun q => applyContactQueryPatch updates q)
      db.contactQueries "Contact query not found" with
  | .error e => .error e
  | .ok (q, tbl) => .ok (q, { db with contactQueries := tbl })

/-- The default admin row inserted by the bootstrap, with the fixed profile
from the source and a hashed default credential. -/
def defaultAdmin (hash : String → Nat → String) (now : Instant) (id : RowId) : User where
  id := id
  username := "admin"
  email := "admin@jsmf.com"
  password := hash "admin123" 10
  role := "admin"
  fullName := "System Administrator"
  mobileNumber := "+91 91626 207918"
  city := "Bhopal"
  isActive := true
  createdAt := now
  updatedAt := now

/-- `initializeDefaultUsers`, success path: select where username "admin"
limit 1; when empty, insert the default admin. -/
def initDefaultUsers (hash : String → Nat → String) (now : Instant) (db : DB) : DB :=
  match db.users.find? (fun u => u.username == "admin") with
  | some _ => db
  | none =>
      { db with nextId := db.nextId + 1
                users := db.users ++ [defaultAdmin hash now db.nextId] }

/-- `initializeDefaultUsers` with the engine-failure model of its
`try`/`catch`: when the select or the insert raises, the exception is caught
(logged) and the constructor completes with the state it had — the gateway
is constructed in every case. -/
def initDefaultUsersCaught (hash : String → Nat → String) (now : Instant)
    (selectFails insertFails : Bool) (db : DB) : DB :=
  if selectFails then db
  else match db.users.find? (fun u => u.username == "admin") with
    | some _ => db
    | none => if insertFails then db else initDefaultUsers hash now db

/-- Running the bootstrap once per process start, in sequence, each start at
its own instant. -/
def runBootstraps (hash : String → Nat → String) (nows : List Instant) (db : DB) : DB :=
  nows.foldl (fun d n => initDefaultUsers hash n d) db

end DatabaseStorage

/-- Number of stored users whose username is "admin". -/
def countAdmins (l : List User) : Nat :=
  l.countP fun u => u.username == "admin"

/-- Hash function standing in for `bcrypt.hash` in concrete witnesses: tags
the plaintext (injective, and never equal to its argument). -/
def toyHash (plaintext : String) (_cost : Nat) : String :=
  "$2b$10$" ++ plaintext

/-- Verifier standing in for `bcrypt.compare`, matching `toyHash`. -/
def toyVerify (plaintext hashed : String) : Bool :=
  hashed == "$2b$10$" ++ plaintext

/-- The empty engine state. -/
def emptyDB : DB where
  nextId := 1
  users := []
  loanApplications := []
  dsaPartners := []
  leads := []
  contactQueries := []

/-- A stored user for the concrete witnesses, credential hashed as
`createUser` would. -/
def sampleUser : User where
  id := 1
  username := "alice"
  email := "alice@x.io"
  password := toyHash "pw1" 10
  role := "user"
  fullName := "Alice"
  mobileNumber := "9"
  city := "Bhopal"
  isActive := true
  createdAt := 0
  updatedAt := 0

/-- A stored loan application for the concrete witnesses. -/
def sampleApplication : LoanApplication where
  id := 2
  userId := 1
  assignedDsaId := none
  status := "pending"
  amount := "100000"
  createdAt := 0
  updatedAt := 0

/-- A stored DSA partner for the concrete witnesses. -/
def samplePartner : DsaPartner where
  id := 3
  userId := 1
  kycStatus := "pending"
  businessName := "Acme Finance"
  createdAt := 0
  updatedAt := 0

/-- A stored lead for the concrete witnesses. -/
def sampleLead : Lead where
  id := 4
  name := "Bob"
  source := "website"
  status := "new"
  assignedDsaId := none
  assignedAt := none
  createdAt := 0
  updatedAt := 0

/-- A stored contact query for the concrete witnesses. -/
def sampleQuery : ContactQuery where
  id := 5
  name := "Carol"
  email := "carol@x.io"
  message := "Need a home loan"
  status := "new"
  createdAt := 0
  updatedAt := 0

/-- A populated engine state holding one row of each entity. -/
def sampleDB : DB where
  nextId := 6
  users := [sampleUser]
  loanApplications := [sampleApplication]
  dsaPartners := [samplePartner]
  leads := [sampleLead]
  contactQueries := [sampleQuery]

/-! ### Generic facts about the engine update -/

/-- The head of a filtered list is its first match. -/
theorem filter_head?_eq_find? {α : Type} (p : α → Bool) (l : List α) :
    (l.filter p).head? = l.find? p := by
  induction l with
  | nil => rfl
  | cons a t ih =>
    by_cases h : p a
    · simp [List.filter_cons_of_pos h, List.find?_cons_of_pos _ h]
    · simp [List.filter_cons_of_neg h, List.find?_cons_of_neg _ h, ih]

/-- When the predicate has a first match `r`, the gateway mutation succeeds,
returning the patched `r` and the pointwise-updated table. -/
theorem tableUpdate_found {α : Type} (pred : α → Bool) (patch : α → α)
    (rows : List α) (msg : String) (r : α) (h : rows.find? pred = some r) :
    tableUpdate pred patch rows msg =
      .ok (patch r, rows.map fun x => if pred x then patch x else x) := by
  have hh : (rows.filter pred).head? = some r := by
    rw [filter_head?_eq_find?, h]
  cases hf : rows.filter pred with
  | nil => rw [hf] at hh; cases hh
  | cons a t =>
    rw [hf] at hh
    simp only [List.head?_cons, Option.some.injEq] at hh
    subst hh
    simp [tableUpdate, updateReturning, hf]

/-- When nothing matches, the gateway mutation throws its message. -/
theorem tableUpdate_error_of {α : Type} (pred : α → Bool) (patch : α → α)
    (rows : List α) (msg : String) (h : ∀ r ∈ rows, pred r = false) :
    tableUpdate pred patch rows msg = .error msg := by
  have hf : rows.filter pred = [] :=
    List.filter_eq_nil_iff.mpr fun a ha => by simp [h a ha]
  simp [tableUpdate, updateReturning, hf]

/-- When something matches, the gateway mutation does not throw. -/
theorem tableUpdate_ok_of_mem {α : Type} (pred : α → Bool) (patch : α → α)
    (rows : List α) (msg : String) (r : α) (hr : r ∈ rows) (hp : pred r = true) :
    ∃ x tbl, tableUpdate pred patch rows msg = .ok (x, tbl) := by
  have : (rows.find? pred).isSome := List.find?_isSome.mpr ⟨r, hr, hp⟩
  rcases Option.isSome_iff_exists.mp this with ⟨u, hu⟩
  exact ⟨patch u, _, tableUpdate_found pred patch rows msg u hu⟩

/-- Every row of the written-back table is a row of the old table, patched
exactly when it matched. -/
theorem mem_updateReturning_fst {α : Type} {pred : α → Bool} {patch : α → α}
    {rows : List α} {r : α} (h : r ∈ (updateReturning pred patch rows).1) :
    ∃ x ∈ rows, r = if pred x then patch x else x := by
  simp only [updateReturning, List.mem_map] at h
  rcases h with ⟨x, hx, hr⟩
  exact ⟨x, hx, hr.symm⟩

/-! ### Per-operation success and not-found characterisations -/

namespace DatabaseStorage

/-- `updateUser` on the first user matching `i`: merge, refresh, write back. -/
theorem updateUser_found (now : Instant) (db : DB) (i : RowId) (p : UserPatch)
    (u : User) (h : db.users.find? (fun v => v.id == i) = some u) :
    updateUser now db i p =
      .ok ({ applyUserPatch p u with updatedAt := now },
           { db with users := db.users.map fun x =>
               if x.id == i then { applyUserPatch p x with updatedAt := now } else x }) := by
  unfold updateUser
  rw [tableUpdate_found _ _ _ _ u h]

/-- `updateUser` throws exactly when no user has the target identifier. -/
theorem updateUser_eq_error_iff (now : Instant) (db : DB) (i : RowId) (p : UserPatch) :
    updateUser now db i p = .error "User not found" ↔ ∀ u ∈ db.users, u.id ≠ i := by
  constructor
  · intro h u hu hid
    rcases tableUpdate_ok_of_mem (fun v => v.id == i)
        (fun v => { applyUserPatch p v with updatedAt := now })
        db.users "User not found" u hu (by simp [hid]) with ⟨x, tbl, hok⟩
    unfold updateUser at h
    rw [hok] at h
    cases h
  · intro h
    unfold updateUser
    rw [tableUpdate_error_of _ _ _ _ fun u hu => by
      simp only [beq_eq_false_iff_ne]; exact h u hu]

end DatabaseStorage

namespace DatabaseStorage

/-- `updateLoanApplication` on the first matching application. -/
theorem updateLoanApplication_found (now : Instant) (db : DB) (i : RowId)
    (p : LoanApplicationPatch) (a : LoanApplication)
    (h : db.loanApplications.find? (fun v => v.id == i) = some a) :
    updateLoanApplication now db i p =
      .ok ({ applyLoanApplicationPatch p a with updatedAt := now },
           { db with loanApplications := db.loanApplications.map fun x =>
               if x.id == i then { applyLoanApplicationPatch p x with updatedAt := now }
               else x }) := by
  unfold updateLoanApplication
  rw [tableUpdate_found _ _ _ _ a h]

/-- `updateLoanApplication` throws exactly when no application matches. -/
theorem updateLoanApplication_eq_error_iff (now : Instant) (db : DB) (i : RowId)
    (p : LoanApplicationPatch) :
    updateLoanApplication now db i p = .error "Application not found" ↔
      ∀ a ∈ db.loanApplications, a.id ≠ i := by
  constructor
  · intro h a ha hid
    rcases tableUpdate_ok_of_mem (fun v => v.id == i)
        (fun v => { applyLoanApplicationPatch p v with updatedAt := now })
        db.loanApplications "Application not found" a ha (by simp [hid]) with ⟨x, tbl, hok⟩
    unfold updateLoanApplication at h
    rw [hok] at h
    cases h
  · intro h
    unfold updateLoanApplication
    rw [tableUpdate_error_of _ _ _ _ fun a ha => by
      simp only [beq_eq_false_iff_ne]; exact h a ha]

/-- `updateDsaPartner` on the first matching partner. -/
theorem updateDsaPartner_found (now : Instant) (db : DB) (i : RowId)
    (p : DsaPartnerPatch) (d : DsaPartner)
    (h : db.dsaPartners.find? (fun v => v.id == i) = some d) :
    updateDsaPartner now db i p =
      .ok ({ applyDsaPartnerPatch p d with updatedAt := now },
           { db with dsaPartners := db.dsaPartners.map fun x =>
               if x.id == i then { applyDsaPartnerPatch p x with updatedAt := now }
               else x }) := by
  unfold updateDsaPartner
  rw [tableUpdate_found _ _ _ _ d h]

/-- `updateDsaPartner` throws exactly when no partner matches. -/
theorem updateDsaPartner_eq_error_iff (now : Instant) (db : DB) (i : RowId)
    (p : DsaPartnerPatch) :
    updateDsaPartner now db i p = .error "DSA partner not found" ↔
      ∀ d ∈ db.dsaPartners, d.id ≠ i := by
  constructor
  · intro h d hd hid
    rcases tableUpdate_ok_of_mem (fun v => v.id == i)
        (fun v => { applyDsaPartnerPatch p v with updatedAt := now })
        db.dsaPartners "DSA partner not found" d hd (by simp [hid]) with ⟨x, tbl, hok⟩
    unfold updateDsaPartner at h
    rw [hok] at h
    cases h
  · intro h
    unfold updateDsaPartner
    rw [tableUpdate_error_of _ _ _ _ fun d hd => by
      simp only [beq_eq_false_iff_ne]; exact h d hd]

/-- `updateLead` on the first matching lead. -/
theorem updateLead_found (now : Instant) (db : DB) (i : RowId)
    (p : LeadPatch) (l : Lead)
    (h : db.leads.find? (fun v => v.id == i) = some l) :
    updateLead now db i p =
      .ok ({ applyLeadPatch p l with updatedAt := now },
           { db with leads := db.leads.map fun x =>
               if x.id == i then { applyLeadPatch p x with updatedAt := now }
               else x }) := by
  unfold updateLead
  rw [tableUpdate_found _ _ _ _ l h]

/-- `updateLead` throws exactly when no lead matches. -/
theorem updateLead_eq_error_iff (now : Instant) (db : DB) (i : RowId) (p : LeadPatch) :
    updateLead now db i p = .error "Lead not found" ↔ ∀ l ∈ db.leads, l.id ≠ i := by
  constructor
  · intro h l hl hid
    rcases tableUpdate_ok_of_mem (fun v => v.id == i)
        (fun v => { applyLeadPatch p v with updatedAt := now })
        db.leads "Lead not found" l hl (by simp [hid]) with ⟨x, tbl, hok⟩
    unfold updateLead at h
    rw [hok] at h
    cases h
  · intro h
    unfold updateLead
    rw [tableUpdate_error_of _ _ _ _ fun l hl => by
      simp only [beq_eq_false_iff_ne]; exact h l hl]

/-- `assignLeadToDsa` on the first matching lead: partner reference,
assignment instant and update instant are written by the one mutation. -/
theorem assignLeadToDsa_found (now : Instant) (db : DB) (leadId dsaId : RowId)
    (l : Lead) (h : db.leads.find? (fun v => v.id == leadId) = some l) :
    assignLeadToDsa now db leadId dsaId =
      .ok ({ l with assignedDsaId := some dsaId, assignedAt := some now,
                    updatedAt := now },
           { db with leads := db.leads.map fun x =>
               if x.id == leadId then
                 { x with assignedDsaId := some dsaId, assignedAt := some now,
                          updatedAt := now }
               else x }) := by
  unfold assignLeadToDsa
  rw [tableUpdate_found _ _ _ _ l h]

/-- `assignLeadToDsa` throws exactly when no lead matches. -/
theorem assignLeadToDsa_eq_error_iff (now : Instant) (db : DB) (leadId dsaId : RowId) :
    assignLeadToDsa now db leadId dsaId = .error "Lead not found" ↔
      ∀ l ∈ db.leads, l.id ≠ leadId := by
  constructor
  · intro h l hl hid
    rcases tableUpdate_ok_of_mem (fun v => v.id == leadId)
        (fun v => { v with assignedDsaId := some dsaId, assignedAt := some now,
                           updatedAt := now })
        db.leads "Lead not found" l hl (by simp [hid]) with ⟨x, tbl, hok⟩
    unfold assignLeadToDsa at h
    rw [hok] at h
    cases h
  · intro h
    unfold assignLeadToDsa
    rw [tableUpdate_error_of _ _ _ _ fun l hl => by
      simp only [beq_eq_false_iff_ne]; exact h l hl]

/-- `updateContactQuery` on the first matching query: the patch is merged
with no forced timestamp refresh. -/
theorem updateContactQuery_found (db : DB) (i : RowId)
    (p : ContactQueryPatch) (q : ContactQuery)
    (h : db.contactQueries.find? (fun v => v.id == i) = some q) :
    updateContactQuery db i p =
      .ok (applyContactQueryPatch p q,
           { db with contactQueries := db.contactQueries.map fun x =>
               if x.id == i then applyContactQueryPatch p x else x }) := by
  unfold updateContactQuery
  rw [tableUpdate_found _ _ _ _ q h]

/-- `updateContactQuery` throws exactly when no query matches. -/
theorem updateContactQuery_eq_error_iff (db : DB) (i : RowId) (p : ContactQueryPatch) :
    updateContactQuery db i p = .error "Contact query not found" ↔
      ∀ q ∈ db.contactQueries, q.id ≠ i := by
  constructor
  · intro h q hq hid
    rcases tableUpdate_ok_of_mem (fun v => v.id == i)
        (fun v => applyContactQueryPatch p v)
        db.contactQueries "Contact query not found" q hq (by simp [hid]) with ⟨x, tbl, hok⟩
    unfold updateContactQuery at h
    rw [hok] at h
    cases h
  · intro h
    unfold updateContactQuery
    rw [tableUpdate_error_of _ _ _ _ fun q hq => by
      simp only [beq_eq_false_iff_ne]; exact h q hq]

end DatabaseStorage

namespace DatabaseStorage

/-- `updateUser` succeeds exactly when some user has the target identifier. -/
theorem updateUser_ok_iff (now : Instant) (db : DB) (i : RowId) (p : UserPatch) :
    (∃ r st, updateUser now db i p = .ok (r, st)) ↔ ∃ u ∈ db.users, u.id = i := by
  constructor
  · rintro ⟨r, st, h⟩
    by_contra hno
    push_neg at hno
    rw [(updateUser_eq_error_iff now db i p).mpr hno] at h
    cases h
  · rintro ⟨u, hu, hid⟩
    have hs : (db.users.find? (fun v => v.id == i)).isSome :=
      List.find?_isSome.mpr ⟨u, hu, by simp [hid]⟩
    rcases Option.isSome_iff_exists.mp hs with ⟨w, hw⟩
    exact ⟨_, _, updateUser_found now db i p w hw⟩

/-- `updateLoanApplication` succeeds exactly when some application matches. -/
theorem updateLoanApplication_ok_iff (now : Instant) (db : DB) (i : RowId)
    (p : LoanApplicationPatch) :
    (∃ r st, updateLoanApplication now db i p = .ok (r, st)) ↔
      ∃ a ∈ db.loanApplications, a.id = i := by
  constructor
  · rintro ⟨r, st, h⟩
    by_contra hno
    push_neg at hno
    rw [(updateLoanApplication_eq_error_iff now db i p).mpr hno] at h
    cases h
  · rintro ⟨a, ha, hid⟩
    have hs : (db.loanApplications.find? (fun v => v.id == i)).isSome :=
      List.find?_isSome.mpr ⟨a, ha, by simp [hid]⟩
    rcases Option.isSome_iff_exists.mp hs with ⟨w, hw⟩
    exact ⟨_, _, updateLoanApplication_found now db i p w hw⟩

/-- `updateDsaPartner` succeeds exactly when some partner matches. -/
theorem updateDsaPartner_ok_iff (now : Instant) (db : DB) (i : RowId)
    (p : DsaPartnerPatch) :
    (∃ r st, updateDsaPartner now db i p = .ok (r, st)) ↔
      ∃ d ∈ db.dsaPartners, d.id = i := by
  constructor
  · rintro ⟨r, st, h⟩
    by_contra hno
    push_neg at hno
    rw [(updateDsaPartner_eq_error_iff now db i p).mpr hno] at h
    cases h
  · rintro ⟨d, hd, hid⟩
    have hs : (db.dsaPartners.find? (fun v => v.id == i)).isSome :=
      List.find?_isSome.mpr ⟨d, hd, by simp [hid]⟩
    rcases Option.isSome_iff_exists.mp hs with ⟨w, hw⟩
    exact ⟨_, _, updateDsaPartner_found now db i p w hw⟩

/-- `updateLead` succeeds exactly when some lead matches. -/
theorem updateLead_ok_iff (now : Instant) (db : DB) (i : RowId) (p : LeadPatch) :
    (∃ r st, updateLead now db i p = .ok (r, st)) ↔ ∃ l ∈ db.leads, l.id = i := by
  constructor
  · rintro ⟨r, st, h⟩
    by_contra hno
    push_neg at hno
    rw [(updateLead_eq_error_iff now db i p).mpr hno] at h
    cases h
  · rintro ⟨l, hl, hid⟩
    have hs : (db.leads.find? (fun v => v.id == i)).isSome :=
      List.find?_isSome.mpr ⟨l, hl, by simp [hid]⟩
    rcases Option.isSome_iff_exists.mp hs with ⟨w, hw⟩
    exact ⟨_, _, updateLead_found now db i p w hw⟩

/-- `assignLeadToDsa` succeeds exactly when some lead matches. -/
theorem assignLeadToDsa_ok_iff (now : Instant) (db : DB) (leadId dsaId : RowId) :
    (∃ r st, assignLeadToDsa now db leadId dsaId = .ok (r, st)) ↔
      ∃ l ∈ db.leads, l.id = leadId := by
  constructor
  · rintro ⟨r, st, h⟩
    by_contra hno
    push_neg at hno
    rw [(assignLeadToDsa_eq_error_iff now db leadId dsaId).mpr hno] at h
    cases h
  · rintro ⟨l, hl, hid⟩
    have hs : (db.leads.find? (fun v => v.id == leadId)).isSome :=
      List.find?_isSome.mpr ⟨l, hl, by simp [hid]⟩
    rcases Option.isSome_iff_exists.mp hs with ⟨w, hw⟩
    exact ⟨_, _, assignLeadToDsa_found now db leadId dsaId w hw⟩

/-- `updateContactQuery` succeeds exactly when some query matches. -/
theorem updateContactQuery_ok_iff (db : DB) (i : RowId) (p : ContactQueryPatch) :
    (∃ r st, updateContactQuery db i p = .ok (r, st)) ↔
      ∃ q ∈ db.contactQueries, q.id = i := by
  constructor
  · rintro ⟨r, st, h⟩
    by_contra hno
    push_neg at hno
    rw [(updateContactQuery_eq_error_iff db i p).mpr hno] at h
    cases h
  · rintro ⟨q, hq, hid⟩
    have hs : (db.contactQueries.find? (fun v => v.id == i)).isSome :=
      List.find?_isSome.mpr ⟨q, hq, by simp [hid]⟩
    rcases Option.isSome_iff_exists.mp hs with ⟨w, hw⟩
    exact ⟨_, _, updateContactQuery_found db i p w hw⟩

end DatabaseStorage

/-! ### Bootstrap lemmas -/

/-- A bootstrap over an admin-free store inserts exactly one admin. -/
theorem initDefaultUsers_count_of_none (hash : String → Nat → String)
    (now : Instant) (db : DB) (h : countAdmins db.users = 0) :
    countAdmins (DatabaseStorage.initDefaultUsers hash now db).users = 1 := by
  have hfind : db.users.find? (fun u => u.username == "admin") = none :=
    List.find?_eq_none.mpr fun u hu => by
      have := List.countP_eq_zero.mp h u hu
      simpa using this
  unfold DatabaseStorage.initDefaultUsers
  rw [hfind]
  simp [countAdmins, List.countP_append, DatabaseStorage.defaultAdmin,
    List.countP_cons]
  exact fun a ha => by simpa using List.countP_eq_zero.mp h a ha

/-- A bootstrap over a store that already has an admin is the identity. -/
theorem initDefaultUsers_of_admin (hash : String → Nat → String)
    (now : Instant) (db : DB) (h : 0 < countAdmins db.users) :
    DatabaseStorage.initDefaultUsers hash now db = db := by
  rcases List.countP_pos_iff.mp h with ⟨u, hu, hp⟩
  have hs : (db.users.find? (fun v => v.username == "admin")).isSome :=
    List.find?_isSome.mpr ⟨u, hu, hp⟩
  rcases Option.isSome_iff_exists.mp hs with ⟨w, hw⟩
  unfold DatabaseStorage.initDefaultUsers
  rw [hw]

/-- Once an admin exists, any further sequence of bootstraps is the identity. -/
theorem runBootstraps_of_admin (hash : String → Nat → String)
    (ns : List Instant) (st : DB) (h : 0 < countAdmins st.users) :
    DatabaseStorage.runBootstraps hash ns st = st := by
  induction ns generalizing st with
  | nil => rfl
  | cons m ms ih =>
    show DatabaseStorage.runBootstraps hash ms
        (DatabaseStorage.initDefaultUsers hash m st) = st
    rw [initDefaultUsers_of_admin hash m st h]
    exact ih st h

/-! ### Claims -/

/-- C3: the gateway's `authenticateUser` returns the same negative value
(`none`, the `null` of the source) for a username matching no stored user as
for a found user whose stored hash the plaintext fails to verify against, so
the two failure causes are indistinguishable from the returned value; only a
found user with a verifying plaintext yields the full `User` entity. -/
theorem claim_C3 (verify : String → String → Bool) :
    (∀ db name pw, DatabaseStorage.getUserByUsername db name = none →
        DatabaseStorage.authenticateUser verify db name pw = none) ∧
    (∀ db name pw u, DatabaseStorage.getUserByUsername db name = some u →
        verify pw u.password = false →
        DatabaseStorage.authenticateUser verify db name pw = none) ∧
    (∀ db name pw u, DatabaseStorage.getUserByUsername db name = some u →
        verify pw u.password = true →
        DatabaseStorage.authenticateUser verify db name pw = some u) ∧
    (∀ db₁ db₂ n₁ n₂ p₁ p₂ u,
        DatabaseStorage.getUserByUsername db₁ n₁ = none →
        DatabaseStorage.getUserByUsername db₂ n₂ = some u →
        verify p₂ u.password = false →
        DatabaseStorage.authenticateUser verify db₁ n₁ p₁ =
          DatabaseStorage.authenticateUser verify db₂ n₂ p₂) := by
  have neg₁ : ∀ db name pw, DatabaseStorage.getUserByUsername db name = none →
      DatabaseStorage.authenticateUser verify db name pw = none := by
    intro db name pw h
    unfold DatabaseStorage.authenticateUser
    rw [h]
  have neg₂ : ∀ db name pw u, DatabaseStorage.getUserByUsername db name = some u →
      verify pw u.password = false →
      DatabaseStorage.authenticateUser verify db name pw = none := by
    intro db name pw u h hv
    unfold DatabaseStorage.authenticateUser
    rw [h]
    simp [hv]
  refine ⟨neg₁, neg₂, ?_, ?_⟩
  · intro db name pw u h hv
    unfold DatabaseStorage.authenticateUser
    rw [h]
    simp [hv]
  · intro db₁ db₂ n₁ n₂ p₁ p₂ u h₁ h₂ hv
    rw [neg₁ db₁ n₁ p₁ h₁, neg₂ db₂ n₂ p₂ u h₂ hv]

/-- C3 witness: an unknown username against the empty store and a wrong
password against the populated store produce the same value. -/
theorem claim_C3_witness :
    DatabaseStorage.authenticateUser toyVerify emptyDB "ghost" "pw1" =
      DatabaseStorage.authenticateUser toyVerify sampleDB "alice" "wrong" :=
  (claim_C3 toyVerify).2.2.2 emptyDB sampleDB "ghost" "alice" "pw1" "wrong"
    sampleUser (by decide) (by decide) (by decide)

/-- C5: each identity-targeting mutation — `updateUser`,
`updateLoanApplication`, `updateDsaPartner`, `updateLead`,
`updateContactQuery`, `assignLeadToDsa` — throws its NotFound error exactly
when no entity with the target identifier exists, and succeeds (returning an
updated entity, never a silent no-op) exactly when one does. -/
theorem claim_C5 (now : Instant) (db : DB) (i : RowId) (pu : UserPatch)
    (pa : LoanApplicationPatch) (pd : DsaPartnerPatch) (pl : LeadPatch)
    (pq : ContactQueryPatch) (dsaId : RowId) :
    (DatabaseStorage.updateUser now db i pu = .error "User not found" ↔
        ∀ u ∈ db.users, u.id ≠ i) ∧
    ((∃ r st, DatabaseStorage.updateUser now db i pu = .ok (r, st)) ↔
        ∃ u ∈ db.users, u.id = i) ∧
    (DatabaseStorage.updateLoanApplication now db i pa = .error "Application not found" ↔
        ∀ a ∈ db.loanApplications, a.id ≠ i) ∧
    ((∃ r st, DatabaseStorage.updateLoanApplication now db i pa = .ok (r, st)) ↔
        ∃ a ∈ db.loanApplications, a.id = i) ∧
    (DatabaseStorage.updateDsaPartner now db i pd = .error "DSA partner not found" ↔
        ∀ d ∈ db.dsaPartners, d.id ≠ i) ∧
    ((∃ r st, DatabaseStorage.updateDsaPartner now db i pd = .ok (r, st)) ↔
        ∃ d ∈ db.dsaPartners, d.id = i) ∧
    (DatabaseStorage.updateLead now db i pl = .error "Lead not found" ↔
        ∀ l ∈ db.leads, l.id ≠ i) ∧
    ((∃ r st, DatabaseStorage.updateLead now db i pl = .ok (r, st)) ↔
        ∃ l ∈ db.leads, l.id = i) ∧
    (DatabaseStorage.updateContactQuery db i pq = .error "Contact query not found" ↔
        ∀ q ∈ db.contactQueries, q.id ≠ i) ∧
    ((∃ r st, DatabaseStorage.updateContactQuery db i pq = .ok (r, st)) ↔
        ∃ q ∈ db.contactQueries, q.id = i) ∧
    (DatabaseStorage.assignLeadToDsa now db i dsaId = .error "Lead not found" ↔
        ∀ l ∈ db.leads, l.id ≠ i) ∧
    ((∃ r st, DatabaseStorage.assignLeadToDsa now db i dsaId = .ok (r, st)) ↔
        ∃ l ∈ db.leads, l.id = i) :=
  ⟨DatabaseStorage.updateUser_eq_error_iff now db i pu,
   DatabaseStorage.updateUser_ok_iff now db i pu,
   DatabaseStorage.updateLoanApplication_eq_error_iff now db i pa,
   DatabaseStorage.updateLoanApplication_ok_iff now db i pa,
   DatabaseStorage.updateDsaPartner_eq_error_iff now db i pd,
   DatabaseStorage.updateDsaPartner_ok_iff now db i pd,
   DatabaseStorage.updateLead_eq_error_iff now db i pl,
   DatabaseStorage.updateLead_ok_iff now db i pl,
   DatabaseStorage.updateContactQuery_eq_error_iff db i pq,
   DatabaseStorage.updateContactQuery_ok_iff db i pq,
   DatabaseStorage.assignLeadToDsa_eq_error_iff now db i dsaId,
   DatabaseStorage.assignLeadToDsa_ok_iff now db i dsaId⟩

/-- C7: on an existing contact query, `updateContactQuery` merges exactly the
supplied fields — every field, the timestamp included, keeps its prior value
unless explicitly supplied; there is no forced timestamp refresh, unlike the
other update operations. -/
theorem claim_C7 (db : DB) (i : RowId) (p : ContactQueryPatch) (q : ContactQuery)
    (h : db.contactQueries.find? (fun v => v.id == i) = some q) :
    ∃ q' st, DatabaseStorage.updateContactQuery db i p = .ok (q', st) ∧
      q'.id = p.id.getD q.id ∧
      q'.name = p.name.getD q.name ∧
      q'.email = p.email.getD q.email ∧
      q'.message = p.message.getD q.message ∧
      q'.status = p.status.getD q.status ∧
      q'.createdAt = p.createdAt.getD q.createdAt ∧
      q'.updatedAt = p.updatedAt.getD q.updatedAt ∧
      (p.updatedAt = none → q'.updatedAt = q.updatedAt) := by
  refine ⟨_, _, DatabaseStorage.updateContactQuery_found db i p q h,
    rfl, rfl, rfl, rfl, rfl, rfl, rfl, ?_⟩
  intro hnone
  show p.updatedAt.getD q.updatedAt = q.updatedAt
  rw [hnone]
  rfl

/-- C7 witness: patching only the status of the stored query changes the
status, keeps the name, and leaves the update instant at its prior value. -/
theorem claim_C7_witness :
    ∃ q' st, DatabaseStorage.updateContactQuery sampleDB 5
        { status := some "responded" } = .ok (q', st) ∧
      q'.status = "responded" ∧ q'.name = "Carol" ∧
      q'.updatedAt = sampleQuery.updatedAt := by
  obtain ⟨q', st, hok, hid, hname, hemail, hmsg, hstat, hcr, hupd, hnone⟩ :=
    claim_C7 sampleDB 5 { status := some "responded" } sampleQuery (by decide)
  exact ⟨q', st, hok, hstat.trans (by decide), hname.trans (by decide), hnone rfl⟩

/-- C4: on an existing lead, `assignLeadToDsa` performs one mutation that
sets the assigned-partner reference and a non-null assignment instant
together (and refreshes the update instant); every lead with that identifier
in the written-back state carries both; on a lead identifier matching no
lead it throws "Lead not found". -/
theorem claim_C4 (now : Instant) (db : DB) (leadId dsaId : RowId) :
    ((∀ l ∈ db.leads, l.id ≠ leadId) →
        DatabaseStorage.assignLeadToDsa now db leadId dsaId = .error "Lead not found") ∧
    (∀ l, db.leads.find? (fun v => v.id == leadId) = some l →
      ∃ l' db', DatabaseStorage.assignLeadToDsa now db leadId dsaId = .ok (l', db') ∧
        l'.assignedDsaId = some dsaId ∧
        l'.assignedAt = some now ∧
        l'.assignedAt ≠ none ∧
        l'.updatedAt = now ∧
        ∀ x ∈ db'.leads, x.id = leadId →
          x.assignedDsaId = some dsaId ∧ x.assignedAt = some now ∧
            x.updatedAt = now) := by
  constructor
  · intro h
    exact (DatabaseStorage.assignLeadToDsa_eq_error_iff now db leadId dsaId).mpr h
  · intro l h
    refine ⟨_, _, DatabaseStorage.assignLeadToDsa_found now db leadId dsaId l h,
      rfl, rfl, by simp, rfl, ?_⟩
    intro x hx hid
    rcases List.mem_map.mp hx with ⟨y, hy, hxy⟩
    by_cases hp : y.id == leadId
    · rw [if_pos hp] at hxy
      rw [← hxy]
      exact ⟨rfl, rfl, rfl⟩
    · rw [if_neg hp] at hxy
      rw [← hxy] at hid
      simp [hid] at hp

/-- C4 witness: assigning the stored lead to partner 3 at instant 7 sets the
partner reference and the assignment instant together and refreshes the
update instant. -/
theorem claim_C4_witness :
    ∃ l' db', DatabaseStorage.assignLeadToDsa 7 sampleDB 4 3 = .ok (l', db') ∧
      l'.assignedDsaId = some 3 ∧ l'.assignedAt = some 7 ∧ l'.updatedAt = 7 := by
  obtain ⟨l', db', hok, h₁, h₂, _, h₄, _⟩ :=
    (claim_C4 7 sampleDB 4 3).2 sampleLead (by decide)
  exact ⟨l', db', hok, h₁, h₂, h₄⟩

/-- C6: on an existing entity, `updateUser` / `updateLoanApplication` /
`updateDsaPartner` / `updateLead` changes exactly the supplied fields — a
field keeps its prior value when absent from the patch and takes the
supplied value when present — while the update instant is set to the moment
of mutation, hence strictly later than the entity's previous update instant
whenever that moment is later. -/
theorem claim_C6 :
    (∀ (now : Instant) (db : DB) (i : RowId) (p : UserPatch) (u : User),
      db.users.find? (fun v => v.id == i) = some u →
      ∃ u' st, DatabaseStorage.updateUser now db i p = .ok (u', st) ∧
        u'.id = p.id.getD u.id ∧
        u'.username = p.username.getD u.username ∧
        u'.email = p.email.getD u.email ∧
        u'.password = p.password.getD u.password ∧
        u'.role = p.role.getD u.role ∧
        u'.fullName = p.fullName.getD u.fullName ∧
        u'.mobileNumber = p.mobileNumber.getD u.mobileNumber ∧
        u'.city = p.city.getD u.city ∧
        u'.isActive = p.isActive.getD u.isActive ∧
        u'.createdAt = p.createdAt.getD u.createdAt ∧
        u'.updatedAt = now ∧
        (u.updatedAt < now → u.updatedAt < u'.updatedAt)) ∧
    (∀ (now : Instant) (db : DB) (i : RowId) (p : LoanApplicationPatch)
        (a : LoanApplication),
      db.loanApplications.find? (fun v => v.id == i) = some a →
      ∃ a' st, DatabaseStorage.updateLoanApplication now db i p = .ok (a', st) ∧
        a'.id = p.id.getD a.id ∧
        a'.userId = p.userId.getD a.userId ∧
        a'.assignedDsaId = p.assignedDsaId.getD a.assignedDsaId ∧
        a'.status = p.status.getD a.status ∧
        a'.amount = p.amount.getD a.amount ∧
        a'.createdAt = p.createdAt.getD a.createdAt ∧
        a'.updatedAt = now ∧
        (a.updatedAt < now → a.updatedAt < a'.updatedAt)) ∧
    (∀ (now : Instant) (db : DB) (i : RowId) (p : DsaPartnerPatch) (d : DsaPartner),
      db.dsaPartners.find? (fun v => v.id == i) = some d →
      ∃ d' st, DatabaseStorage.updateDsaPartner now db i p = .ok (d', st) ∧
        d'.id = p.id.getD d.id ∧
        d'.userId = p.userId.getD d.userId ∧
        d'.kycStatus = p.kycStatus.getD d.kycStatus ∧
        d'.businessName = p.businessName.getD d.businessName ∧
        d'.createdAt = p.createdAt.getD d.createdAt ∧
        d'.updatedAt = now ∧
        (d.updatedAt < now → d.updatedAt < d'.updatedAt)) ∧
    (∀ (now : Instant) (db : DB) (i : RowId) (p : LeadPatch) (l : Lead),
      db.leads.find? (fun v => v.id == i) = some l →
      ∃ l' st, DatabaseStorage.updateLead now db i p = .ok (l', st) ∧
        l'.id = p.id.getD l.id ∧
        l'.name = p.name.getD l.name ∧
        l'.source = p.source.getD l.source ∧
        l'.status = p.status.getD l.status ∧
        l'.assignedDsaId = p.assignedDsaId.getD l.assignedDsaId ∧
        l'.assignedAt = p.assignedAt.getD l.assignedAt ∧
        l'.createdAt = p.createdAt.getD l.createdAt ∧
        l'.updatedAt = now ∧
        (l.updatedAt < now → l.updatedAt < l'.updatedAt)) := by
  refine ⟨?_, ?_, ?_, ?_⟩
  · intro now db i p u h
    exact ⟨_, _, DatabaseStorage.updateUser_found now db i p u h,
      rfl, rfl, rfl, rfl, rfl, rfl, rfl, rfl, rfl, rfl, rfl, fun hlt => hlt⟩
  · intro now db i p a h
    exact ⟨_, _, DatabaseStorage.updateLoanApplication_found now db i p a h,
      rfl, rfl, rfl, rfl, rfl, rfl, rfl, fun hlt => hlt⟩
  · intro now db i p d h
    exact ⟨_, _, DatabaseStorage.updateDsaPartner_found now db i p d h,
      rfl, rfl, rfl, rfl, rfl, rfl, fun hlt => hlt⟩
  · intro now db i p l h
    exact ⟨_, _, DatabaseStorage.updateLead_found now db i p l h,
      rfl, rfl, rfl, rfl, rfl, rfl, rfl, rfl, fun hlt => hlt⟩

/-- C6 witness: patching only the city of the stored user at instant 9
changes the city, keeps the username and the credential, and advances the
update instant strictly (0 to 9). -/
theorem claim_C6_witness :
    ∃ u' st, DatabaseStorage.updateUser 9 sampleDB 1
        { city := some "Indore" } = .ok (u', st) ∧
      u'.city = "Indore" ∧ u'.username = "alice" ∧
      u'.password = toyHash "pw1" 10 ∧ u'.updatedAt = 9 ∧
      sampleUser.updatedAt < u'.updatedAt := by
  obtain ⟨u', st, hok, hid, hun, hem, hpw, hrole, hfn, hmn, hcity, hact, hcr,
    hupd, himp⟩ :=
    claim_C6.1 9 sampleDB 1 { city := some "Indore" } sampleUser (by decide)
  exact ⟨u', st, hok, hcity.trans (by decide), hun.trans (by decide),
    hpw.trans (by decide), hupd, himp (by decide)⟩

/-- C10: the partial-merge updates protect no field — a patch supplying the
identifier or the creation instant overwrites the stored one — while a
caller-supplied update instant is itself overridden by the freshly generated
one, because the forced refresh is spread after the merge; this holds for
`updateUser`, `updateLoanApplication`, `updateDsaPartner` and `updateLead`. -/
theorem claim_C10 :
    (∀ (now : Instant) (db : DB) (i : RowId) (p : UserPatch) (u : User),
      db.users.find? (fun v => v.id == i) = some u →
      ∃ u' st, DatabaseStorage.updateUser now db i p = .ok (u', st) ∧
        (∀ j, p.id = some j → u'.id = j) ∧
        (∀ t, p.createdAt = some t → u'.createdAt = t) ∧
        (∀ t, p.updatedAt = some t → u'.updatedAt = now)) ∧
    (∀ (now : Instant) (db : DB) (i : RowId) (p : LoanApplicationPatch)
        (a : LoanApplication),
      db.loanApplications.find? (fun v => v.id == i) = some a →
      ∃ a' st, DatabaseStorage.updateLoanApplication now db i p = .ok (a', st) ∧
        (∀ j, p.id = some j → a'.id = j) ∧
        (∀ t, p.createdAt = some t → a'.createdAt = t) ∧
        (∀ t, p.updatedAt = some t → a'.updatedAt = now)) ∧
    (∀ (now : Instant) (db : DB) (i : RowId) (p : DsaPartnerPatch) (d : DsaPartner),
      db.dsaPartners.find? (fun v => v.id == i) = some d →
      ∃ d' st, DatabaseStorage.updateDsaPartner now db i p = .ok (d', st) ∧
        (∀ j, p.id = some j → d'.id = j) ∧
        (∀ t, p.createdAt = some t → d'.createdAt = t) ∧
        (∀ t, p.updatedAt = some t → d'.updatedAt = now)) ∧
    (∀ (now : Instant) (db : DB) (i : RowId) (p : LeadPatch) (l : Lead),
      db.leads.find? (fun v => v.id == i) = some l →
      ∃ l' st, DatabaseStorage.updateLead now db i p = .ok (l', st) ∧
        (∀ j, p.id = some j → l'.id = j) ∧
        (∀ t, p.createdAt = some t → l'.createdAt = t) ∧
        (∀ t, p.updatedAt = some t → l'.updatedAt = now)) := by
  refine ⟨?_, ?_, ?_, ?_⟩
  · intro now db i p u h
    refine ⟨_, _, DatabaseStorage.updateUser_found now db i p u h, ?_, ?_, ?_⟩
    · intro j hj
      show p.id.getD u.id = j
      rw [hj]; rfl
    · intro t ht
      show p.createdAt.getD u.createdAt = t
      rw [ht]; rfl
    · intro t _
      rfl
  · intro now db i p a h
    refine ⟨_, _, DatabaseStorage.updateLoanApplication_found now db i p a h,
      ?_, ?_, ?_⟩
    · intro j hj
      show p.id.getD a.id = j
      rw [hj]; rfl
    · intro t ht
      show p.createdAt.getD a.createdAt = t
      rw [ht]; rfl
    · intro t _
      rfl
  · intro now db i p d h
    refine ⟨_, _, DatabaseStorage.updateDsaPartner_found now db i p d h,
      ?_, ?_, ?_⟩
    · intro j hj
      show p.id.getD d.id = j
      rw [hj]; rfl
    · intro t ht
      show p.createdAt.getD d.createdAt = t
      rw [ht]; rfl
    · intro t _
      rfl
  · intro now db i p l h
    refine ⟨_, _, DatabaseStorage.updateLead_found now db i p l h, ?_, ?_, ?_⟩
    · intro j hj
      show p.id.getD l.id = j
      rw [hj]; rfl
    · intro t ht
      show p.createdAt.getD l.createdAt = t
      rw [ht]; rfl
    · intro t _
      rfl

/-- C10 witness: a patch supplying identifier 42, creation instant 50 and
update instant 999 against the stored user at instant 9 yields identifier
42, creation instant 50, and update instant 9 (the supplied 999 is
overridden by the refresh). -/
theorem claim_C10_witness :
    ∃ u' st, DatabaseStorage.updateUser 9 sampleDB 1
        { id := some 42, createdAt := some 50, updatedAt := some 999 } =
          .ok (u', st) ∧
      u'.id = 42 ∧ u'.createdAt = 50 ∧ u'.updatedAt = 9 := by
  obtain ⟨u', st, hok, hid, hcr, hupd⟩ :=
    claim_C10.1 9 sampleDB 1
      { id := some 42, createdAt := some 50, updatedAt := some 999 }
      sampleUser (by decide)
  exact ⟨u', st, hok, hid 42 rfl, hcr 50 rfl, hupd 999 rfl⟩

/-- C2: for a creation input whose username is not yet taken, `createUser`
followed by `authenticateUser` with the same username and the original
plaintext returns the created user, while `authenticateUser` with any
plaintext that does not verify against the stored hash returns the negative
result `none`, not an error.  The hypotheses on `verify`/`hash` are the
one-way-verification contract of the external bcrypt collaborator. -/
theorem claim_C2 (hash : String → Nat → String) (verify : String → String → Bool)
    (now : Instant) (db : DB) (iu : InsertUser) (wrong : String)
    (huniq : ∀ u ∈ db.users, u.username ≠ iu.username)
    (hok : verify iu.password (hash iu.password 10) = true)
    (hbad : verify wrong (hash iu.password 10) = false) :
    DatabaseStorage.authenticateUser verify
        (DatabaseStorage.createUser hash now db iu).2 iu.username iu.password =
      some (DatabaseStorage.createUser hash now db iu).1 ∧
    DatabaseStorage.authenticateUser verify
        (DatabaseStorage.createUser hash now db iu).2 iu.username wrong = none := by
  have hfind : DatabaseStorage.getUserByUsername
      (DatabaseStorage.createUser hash now db iu).2 iu.username =
        some (DatabaseStorage.createUser hash now db iu).1 := by
    unfold DatabaseStorage.getUserByUsername DatabaseStorage.createUser
    rw [List.find?_append]
    have h₁ : db.users.find? (fun u => u.username == iu.username) = none :=
      List.find?_eq_none.mpr fun u hu => by simp [huniq u hu]
    rw [h₁]
    simp
  have hpw : (DatabaseStorage.createUser hash now db iu).1.password =
      hash iu.password 10 := rfl
  constructor
  · unfold DatabaseStorage.authenticateUser
    rw [hfind]
    simp [hpw, hok]
  · unfold DatabaseStorage.authenticateUser
    rw [hfind]
    simp [hpw, hbad]

/-- C2 witness: creating "bob" with plaintext "s3cret" over the populated
store, authenticating with "s3cret" yields the created user and with
"letmein" yields `none`. -/
theorem claim_C2_witness :
    DatabaseStorage.authenticateUser toyVerify
        (DatabaseStorage.createUser toyHash 2 sampleDB
          { username := "bob", email := "bob@x.io", password := "s3cret",
            fullName := "Bob", mobileNumber := "8", city := "Indore" }).2
        "bob" "s3cret" =
      some (DatabaseStorage.createUser toyHash 2 sampleDB
          { username := "bob", email := "bob@x.io", password := "s3cret",
            fullName := "Bob", mobileNumber := "8", city := "Indore" }).1 ∧
    DatabaseStorage.authenticateUser toyVerify
        (DatabaseStorage.createUser toyHash 2 sampleDB
          { username := "bob", email := "bob@x.io", password := "s3cret",
            fullName := "Bob", mobileNumber := "8", city := "Indore" }).2
        "bob" "letmein" = none :=
  claim_C2 toyHash toyVerify 2 sampleDB
    { username := "bob", email := "bob@x.io", password := "s3cret",
      fullName := "Bob", mobileNumber := "8", city := "Indore" }
    "letmein" (by decide) (by decide) (by decide)

/-- C8: running the bootstrap sequence any number of times over an
admin-free store leaves exactly one user with username "admin"; and under
the engine-failure model of its `try`/`catch`, construction always
completes — the caught run yields either the untouched state or the
bootstrapped state, never a propagated failure, and the no-failure run is
the normal bootstrap. -/
theorem claim_C8 (hash : String → Nat → String) (nows : List Instant) (db : DB)
    (h₀ : countAdmins db.users = 0) (hne : nows ≠ []) :
    countAdmins (DatabaseStorage.runBootstraps hash nows db).users = 1 ∧
    (∀ (now : Instant) (selectFails insertFails : Bool) (st : DB),
        DatabaseStorage.initDefaultUsersCaught hash now selectFails insertFails st = st ∨
        DatabaseStorage.initDefaultUsersCaught hash now selectFails insertFails st =
          DatabaseStorage.initDefaultUsers hash now st) ∧
    (∀ (now : Instant) (st : DB),
        DatabaseStorage.initDefaultUsersCaught hash now false false st =
          DatabaseStorage.initDefaultUsers hash now st) := by
  refine ⟨?_, ?_, ?_⟩
  · cases nows with
    | nil => exact absurd rfl hne
    | cons n ns =>
      have h₁ : countAdmins (DatabaseStorage.initDefaultUsers hash n db).users = 1 :=
        initDefaultUsers_count_of_none hash n db h₀
      have h₂ : DatabaseStorage.runBootstraps hash ns
          (DatabaseStorage.initDefaultUsers hash n db) =
            DatabaseStorage.initDefaultUsers hash n db :=
        runBootstraps_of_admin hash ns _ (by rw [h₁]; exact Nat.one_pos)
      show countAdmins (DatabaseStorage.runBootstraps hash ns
          (DatabaseStorage.initDefaultUsers hash n db)).users = 1
      rw [h₂]
      exact h₁
  · intro now selectFails insertFails st
    unfold DatabaseStorage.initDefaultUsersCaught
    cases selectFails with
    | true => exact Or.inl rfl
    | false =>
      simp only [Bool.false_eq_true, if_false]
      cases hf : st.users.find? (fun u => u.username == "admin") with
      | some u => exact Or.inl rfl
      | none =>
        cases insertFails with
        | true => exact Or.inl rfl
        | false => exact Or.inr rfl
  · intro now st
    unfold DatabaseStorage.initDefaultUsersCaught
    simp only [Bool.false_eq_true, if_false]
    cases hf : st.users.find? (fun u => u.username == "admin") with
    | some u =>
      unfold DatabaseStorage.initDefaultUsers
      rw [hf]
    | none => rfl

/-- C8 witness: two process starts (instants 3 and 4) over the empty store
leave exactly one "admin" user, and the failure-model facts hold at
instant 3 over the empty store. -/
theorem claim_C8_witness :
    countAdmins (DatabaseStorage.runBootstraps toyHash [3, 4] emptyDB).users = 1 ∧
    (∀ (now : Instant) (selectFails insertFails : Bool) (st : DB),
        DatabaseStorage.initDefaultUsersCaught toyHash now selectFails insertFails st = st ∨
        DatabaseStorage.initDefaultUsersCaught toyHash now selectFails insertFails st =
          DatabaseStorage.initDefaultUsers toyHash now st) ∧
    (∀ (now : Instant) (st : DB),
        DatabaseStorage.initDefaultUsersCaught toyHash now false false st =
          DatabaseStorage.initDefaultUsers toyHash now st) :=
  claim_C8 toyHash [3, 4] emptyDB (by decide) (by decide)

/-- C1 counterexample: `updateUser` applied to a partial record carrying a
password stores the supplied plaintext "hunter2" verbatim — the stored
credential is the plaintext itself, not a hash of it. -/
theorem claim_C1_counterexample :
    (DatabaseStorage.updateUser 1
        (DatabaseStorage.createUser toyHash 0 emptyDB
          { username := "alice", email := "alice@x.io", password := "pw1",
            fullName := "Alice", mobileNumber := "9", city := "Bhopal" }).2
        1 { password := some "hunter2" }).map (fun r => r.1.password) =
      .ok "hunter2" ∧
    "hunter2" ≠ toyHash "hunter2" 10 ∧ "hunter2" ≠ toyHash "pw1" 10 :=
  ⟨rfl, by decide, by decide⟩

/-- C1 (amended): `createUser` persists the hash of the supplied plaintext
(and every user it adds to the store carries that hash), but `updateUser`
performs no hashing — with no password field in the patch the stored
credential is unchanged, while a supplied password value is stored
verbatim.  The no-plaintext invariant therefore holds only if callers never
place a plaintext credential in an update patch. -/
theorem claim_C1 (hash : String → Nat → String) (now : Instant) (db : DB)
    (iu : InsertUser) (i : RowId) (p : UserPatch) (u : User)
    (hfind : db.users.find? (fun v => v.id == i) = some u) :
    ((DatabaseStorage.createUser hash now db iu).1.password = hash iu.password 10) ∧
    (∀ w ∈ (DatabaseStorage.createUser hash now db iu).2.users,
        w ∈ db.users ∨ w.password = hash iu.password 10) ∧
    (p.password = none →
      ∃ u' st, DatabaseStorage.updateUser now db i p = .ok (u', st) ∧
        u'.password = u.password) ∧
    (∀ q, p.password = some q →
      ∃ u' st, DatabaseStorage.updateUser now db i p = .ok (u', st) ∧
        u'.password = q) := by
  refine ⟨rfl, ?_, ?_, ?_⟩
  · intro w hw
    simp only [DatabaseStorage.createUser] at hw
    rcases List.mem_append.mp hw with h | h
    · exact Or.inl h
    · right
      rw [List.mem_singleton.mp h]
  · intro hp
    refine ⟨_, _, DatabaseStorage.updateUser_found now db i p u hfind, ?_⟩
    show p.password.getD u.password = u.password
    rw [hp]
    rfl
  · intro q hq
    refine ⟨_, _, DatabaseStorage.updateUser_found now db i p u hfind, ?_⟩
    show p.password.getD u.password = q
    rw [hq]
    rfl

/-- C1 witness: over the populated store, a creation stores the hash of its
plaintext, while an update patch carrying "hunter2" stores "hunter2". -/
theorem claim_C1_witness :
    (DatabaseStorage.createUser toyHash 9 sampleDB
        { username := "bob", email := "bob@x.io", password := "pw2",
          fullName := "Bob", mobileNumber := "7", city := "Indore" }).1.password =
      toyHash "pw2" 10 ∧
    ∃ u' st, DatabaseStorage.updateUser 9 sampleDB 1
        { password := some "hunter2" } = .ok (u', st) ∧
      u'.password = "hunter2" := by
  obtain ⟨hcreate, -, -, hsupplied⟩ :=
    claim_C1 toyHash 9 sampleDB
      { username := "bob", email := "bob@x.io", password := "pw2",
        fullName := "Bob", mobileNumber := "7", city := "Indore" }
      1 { password := some "hunter2" } sampleUser (by decide)
  exact ⟨hcreate, hsupplied "hunter2" rfl⟩

/-- C9 counterexample: a creation input supplying the empty string as source
(a falsy value under the JS `||` defaulting) yields a lead whose source is
"website", not the supplied source. -/
theorem claim_C9_counterexample :
    (({ name := "Eve", source := some "", status := some "converted" } :
        InsertLead)).source = some "" ∧
    (DatabaseStorage.createLead 0 emptyDB
        { name := "Eve", source := some "", status := some "converted" }).1.source =
      "website" ∧
    "website" ≠ "" :=
  ⟨rfl, rfl, by decide⟩

/-- C9 (amended): every created lead has status "new" regardless of any
caller-supplied status; its source is the supplied source when that is a
non-empty string, and "website" when the source is absent or the empty
string (the JS `||` default treats the empty string as unsupplied). -/
theorem claim_C9 (now : Instant) (db : DB) (lead : InsertLead) :
    (DatabaseStorage.createLead now db lead).1.status = "new" ∧
    (lead.source = none →
        (DatabaseStorage.createLead now db lead).1.source = "website") ∧
    (lead.source = some "" →
        (DatabaseStorage.createLead now db lead).1.source = "website") ∧
    (∀ s, lead.source = some s → s ≠ "" →
        (DatabaseStorage.createLead now db lead).1.source = s) := by
  refine ⟨rfl, ?_, ?_, ?_⟩
  · intro h
    show jsOrStr lead.source "website" = "website"
    rw [h]
    rfl
  · intro h
    show jsOrStr lead.source "website" = "website"
    rw [h]
    rfl
  · intro s hs hne
    show jsOrStr lead.source "website" = s
    rw [hs]
    show (if s = "" then "website" else s) = s
    rw [if_neg hne]

/-- C9 witness: a sourceless creation input with a caller-supplied status
yields source "website" and status "new"; a "referral" source is kept. -/
theorem claim_C9_witness :
    (DatabaseStorage.createLead 0 emptyDB
        { name := "Eve", status := some "converted" }).1.status = "new" ∧
    (DatabaseStorage.createLead 0 emptyDB
        { name := "Eve", status := some "converted" }).1.source = "website" ∧
    (DatabaseStorage.createLead 0 emptyDB
        { name := "Fay", source := some "referral" }).1.source = "referral" := by
  obtain ⟨h₁, h₂, -, -⟩ :=
    claim_C9 0 emptyDB { name := "Eve", status := some "converted" }
  obtain ⟨-, -, -, h₃⟩ :=
    claim_C9 0 emptyDB { name := "Fay", source := some "referral" }
  exact ⟨h₁, h₂ rfl, h₃ "referral" rfl (by decide)⟩
